import Mathlib

/-!
Verification of the cityarray security core (signing, tiers, audit log,
secure display engine) against a shallow Lean embedding of
`src/cityarray/security/signing.py`, `tiers.py`, `audit.py` and
`src/cityarray/display/secure_engine.py`.

Modelling conventions:
* Wall-clock instants (message `timestamp` / `expires`) are integers; the
  Python `is_expired` comparison `now > expires` is kept verbatim.
* Ed25519 is modelled as an ideal (collision-free, unforgeable) signature
  scheme: a signature is the pair of the signing key and the canonical
  payload, and verification checks that pair against the verifier's key.
* SHA-256 over the canonical JSON of an audit record is modelled as an
  ideal injective digest: the `Hash.digest` constructor applied to the
  hashed fields.  The genesis sentinel is a raw string hash.
* Python dictionaries with string values (message `content`, generic audit
  `data`) are association lists `List (String × String)`.
* Randomness (message ids, nonces) and clock reads are explicit parameters.
* The replay cache `_seen_nonces` is a Python set, held here as a
  duplicate-free list in insertion order.  Its arbitrary iteration order
  at eviction is modelled explicitly by `record_nonce_set` / `verify_set`
  (the order is a parameter); `record_nonce` / `verify` fix the insertion
  order, and agree with the set semantics at that order
  (`record_nonce_eq_set`) — they are used only for properties that do not
  depend on which half is evicted.
* Logging to `logger` and the optional callbacks/hooks are external side
  effects with no influence on the returned data, and are not modelled.
-/

/-! ## Content and authorizations (`signing.py`) -/

/-- Message `content` dict (template_id, params, localized text) as an
association list. -/
abbrev Content : Type := List (String × String)

/-- `Authorization` dataclass from `signing.py`. -/
structure Authorization where
  operator_id : String
  timestamp : String
  method : String
deriving DecidableEq

/-! ## Signed messages -/

/-- The canonical signed payload: every `SignedMessage` field except
`signature`, mirroring `SignedMessage.payload_for_signing`.  The canonical
JSON encoding is injective on these fields, so the payload is modelled as
the record of the fields themselves. -/
structure SigPayload where
  message_id : String
  device_id : String
  timestamp : Int
  expires : Int
  nonce : String
  tier : String
  content : Content
  authorizations : List Authorization
deriving DecidableEq

/-- An ideal Ed25519 signature: the signing key together with the exact
payload bytes that were signed. -/
structure Sig where
  key : Nat
  payload : SigPayload
deriving DecidableEq

/-- Ideal Ed25519 signing (`Ed25519PrivateKey.sign`). -/
def ed25519_sign (key : Nat) (p : SigPayload) : Sig := ⟨key, p⟩

/-- `SignedMessage` dataclass from `signing.py`. -/
structure SignedMessage where
  message_id : String
  device_id : String
  timestamp : Int
  expires : Int
  nonce : String
  tier : String
  content : Content
  authorizations : List Authorization
  signature : Option Sig
deriving DecidableEq

/-- `SignedMessage.payload_for_signing`: all fields except `signature`. -/
def SignedMessage.payload_for_signing (m : SignedMessage) : SigPayload :=
  { message_id := m.message_id
    device_id := m.device_id
    timestamp := m.timestamp
    expires := m.expires
    nonce := m.nonce
    tier := m.tier
    content := m.content
    authorizations := m.authorizations }

/-- `SignedMessage.is_expired`: `datetime.now > expires`. -/
def SignedMessage.is_expired (m : SignedMessage) (now : Int) : Bool :=
  now > m.expires

/-! ## MessageSigner -/

/-- `MessageSigner.sign`: populate the signature field over the canonical
payload. -/
def MessageSigner.sign_message (key : Nat) (m : SignedMessage) : SignedMessage :=
  { m with signature := some (ed25519_sign key m.payload_for_signing) }

/-- `MessageSigner.create_signed_message`.  The clock read (`now`) and the
two random 128-bit tokens (`message_id`, `nonce`) are explicit
parameters. -/
def MessageSigner.create_signed_message
    (key : Nat) (device_id : String) (tier : String) (content : Content)
    (ttl_seconds : Int) (authorizations : List Authorization)
    (now : Int) (message_id : String) (nonce : String) : SignedMessage :=
  MessageSigner.sign_message key
    { message_id := message_id
      device_id := device_id
      timestamp := now
      expires := now + ttl_seconds
      nonce := nonce
      tier := tier
      content := content
      authorizations := authorizations
      signature := none }

/-! ## MessageVerifier -/

/-- The error kinds `MessageVerifier.verify` can raise, in the spec's
taxonomy: `ValueError` on device mismatch, `MessageExpiredError`,
`ReplayDetectedError`, and `SignatureError` for a missing or an invalid
signature. -/
inductive VerifyError where
  | deviceMismatch
  | expired
  | replayDetected
  | noSignature
  | signatureInvalid
deriving DecidableEq

/-- `MessageVerifier` state: bound device id, replay cache
(`_seen_nonces`, insertion-ordered), its capacity (`_max_nonces`, 10000 in
the source) and the trusted public key. -/
structure MessageVerifier where
  device_id : String
  seen_nonces : List String
  max_nonces : Nat
  public_key : Nat
deriving DecidableEq

/-- A fresh verifier as built by `MessageVerifier.__init__`. -/
def MessageVerifier.init (public_key : Nat) (device_id : String) : MessageVerifier :=
  { device_id := device_id, seen_nonces := [], max_nonces := 10000,
    public_key := public_key }

/-- Nonce recording after all checks pass, at the insertion iteration
order: the deterministic instance of `record_nonce_set` in which
`list(self._seen_nonces)` enumerates the set in insertion order, so the
eviction drops the oldest `_max_nonces // 2` elements
(`record_nonce_eq_set`).  Properties that do not depend on which half the
set's iteration order selects are stated over this instance. -/
def MessageVerifier.record_nonce (v : MessageVerifier) (nonce : String) : MessageVerifier :=
  let seen := v.seen_nonces ++ [nonce]
  if seen.length > v.max_nonces then
    { v with seen_nonces := seen.drop (v.max_nonces / 2) }
  else
    { v with seen_nonces := seen }

/-- Nonce recording under the source's actual set semantics: the replay
cache is a Python `set`, and on overflow `list(self._seen_nonces)[:max//2]`
selects half of its elements in the set's arbitrary iteration order, each
of which is then discarded.  `iter` stands for `list(self._seen_nonces)`
as enumerated after the add — any permutation of the cache's contents, so
the evicted half may include the nonce just added. -/
def MessageVerifier.record_nonce_set (v : MessageVerifier) (nonce : String)
    (iter : List String) : MessageVerifier :=
  let seen := v.seen_nonces ++ [nonce]
  if seen.length > v.max_nonces then
    let to_remove := iter.take (v.max_nonces / 2)
    { v with seen_nonces := seen.filter (fun n => decide (n ∉ to_remove)) }
  else
    { v with seen_nonces := seen }

/-- `MessageVerifier.verify`, checking in source order: device binding,
expiration, replay, signature presence, signature validity; the nonce is
recorded only after every check passes.  Returns the raised error (if
any) together with the verifier state after the call. -/
def MessageVerifier.verify (v : MessageVerifier) (now : Int) (m : SignedMessage) :
    Option VerifyError × MessageVerifier :=
  if m.device_id ≠ v.device_id ∧ m.device_id ≠ "*" then
    (some .deviceMismatch, v)
  else if m.is_expired now then
    (some .expired, v)
  else if m.nonce ∈ v.seen_nonces then
    (some .replayDetected, v)
  else
    match m.signature with
    | none => (some .noSignature, v)
    | some sig =>
      if sig = ed25519_sign v.public_key m.payload_for_signing then
        (none, v.record_nonce m.nonce)
      else
        (some .signatureInvalid, v)

/-- `MessageVerifier.verify` under the set semantics of the replay cache:
identical gates in identical order; only the success path's nonce
recording depends on the cache's iteration order `iter`. -/
def MessageVerifier.verify_set (v : MessageVerifier) (now : Int) (m : SignedMessage)
    (iter : List String) : Option VerifyError × MessageVerifier :=
  if m.device_id ≠ v.device_id ∧ m.device_id ≠ "*" then
    (some .deviceMismatch, v)
  else if m.is_expired now then
    (some .expired, v)
  else if m.nonce ∈ v.seen_nonces then
    (some .replayDetected, v)
  else
    match m.signature with
    | none => (some .noSignature, v)
    | some sig =>
      if sig = ed25519_sign v.public_key m.payload_for_signing then
        (none, v.record_nonce_set m.nonce iter)
      else
        (some .signatureInvalid, v)

/-! ## Alert tiers (`tiers.py`) -/

/-- `AlertTier` enum. -/
inductive AlertTier where
  | informational
  | advisory
  | warning
  | emergency
  | ipaws
deriving DecidableEq

/-- The enum's string value. -/
def AlertTier.value : AlertTier → String
  | .informational => "informational"
  | .advisory => "advisory"
  | .warning => "warning"
  | .emergency => "emergency"
  | .ipaws => "ipaws"

/-- `AlertTier(s)` construction by value; `none` models the `ValueError`
on an unknown tier string. -/
def AlertTier.fromString (s : String) : Option AlertTier :=
  if s = "informational" then some .informational
  else if s = "advisory" then some .advisory
  else if s = "warning" then some .warning
  else if s = "emergency" then some .emergency
  else if s = "ipaws" then some .ipaws
  else none

/-- `AlertTier.requires_human`: tier in (WARNING, EMERGENCY). -/
def AlertTier.requires_human : AlertTier → Bool
  | .warning => true
  | .emergency => true
  | _ => false

/-- `AlertTier.requires_multiparty`: tier == EMERGENCY. -/
def AlertTier.requires_multiparty : AlertTier → Bool
  | .emergency => true
  | _ => false

/-- `AlertTier.min_authorizations`. -/
def AlertTier.min_authorizations : AlertTier → Nat
  | .emergency => 2
  | .warning => 1
  | _ => 0

/-- `AlertTier.max_latency_seconds`. -/
def AlertTier.max_latency_seconds : AlertTier → Nat
  | .informational => 1
  | .advisory => 2
  | .warning => 60
  | .emergency => 120
  | .ipaws => 5

/-- `AlertTier.ttl_seconds`. -/
def AlertTier.ttl_seconds : AlertTier → Nat
  | .informational => 300
  | .advisory => 600
  | .warning => 900
  | .emergency => 1800
  | .ipaws => 3600

/-- `AUTONOMOUS_TEMPLATES` dict; `dict.get(tier, [])` yields `[]` for
tiers that have no entry (warning, emergency, ipaws). -/
def AUTONOMOUS_TEMPLATES : AlertTier → List String
  | .informational =>
      ["crowd-count", "weather-current", "time-display", "event-info", "wayfinding"]
  | .advisory =>
      ["area-congested", "weather-advisory", "event-starting", "event-ending",
       "alternate-route"]
  | _ => []

/-- `get_tier_for_detection`; the float confidence is modelled over ℚ. -/
def get_tier_for_detection (detection_type : String) (confidence : ℚ) : AlertTier :=
  if detection_type = "fire" ∨ detection_type = "active_shooter" ∨
      detection_type = "explosion" then
    if confidence ≥ 0.9 then .emergency
    else if confidence ≥ 0.7 then .warning
    else .advisory
  else if detection_type = "smoke" ∨ detection_type = "fight" ∨
      detection_type = "medical_emergency" then
    if confidence ≥ 0.85 then .warning
    else .advisory
  else if detection_type = "crowd" ∨ detection_type = "congestion" ∨
      detection_type = "weather" then
    .informational
  else
    .advisory

/-- `is_template_autonomous`. -/
def is_template_autonomous (tier : AlertTier) (template_id : String) : Bool :=
  if tier.requires_human then false
  else template_id ∈ AUTONOMOUS_TEMPLATES tier

/-- `TierValidator`: `allowed_operators` is `none` when the constructor got
`None` or an empty list (Python truthiness of `if allowed_operators`). -/
structure TierValidator where
  allowed_operators : Option (List String)
deriving DecidableEq

/-- `TierValidator.validate`, mirroring the source's check order:
autonomous-template gate for non-human tiers, authorization count,
operator allow-list (skipped when the set is falsy), duplicate-operator
check for multiparty tiers. -/
def TierValidator.validate (tv : TierValidator) (tier : AlertTier)
    (template_id : String) (authorizations : List Authorization) :
    Bool × Option String :=
  if ¬ tier.requires_human then
    if is_template_autonomous tier template_id then (true, none)
    else
      (false, some ("Template " ++ template_id ++ " not approved for autonomous "
        ++ tier.value))
  else if authorizations.length < tier.min_authorizations then
    (false, some ("Need " ++ toString tier.min_authorizations
      ++ " authorizations, got " ++ toString authorizations.length))
  else
    let unauthorized :=
      match tv.allowed_operators with
      | none => none
      | some ops =>
        if ops = [] then none
        else authorizations.find? (fun (a : Authorization) => decide (a.operator_id ∉ ops))
    match unauthorized with
    | some a => (false, some ("Operator " ++ a.operator_id ++ " not authorized"))
    | none =>
      if tier.requires_multiparty then
        let operator_ids := authorizations.map (fun a => a.operator_id)
        if operator_ids.length ≠ operator_ids.dedup.length then
          (false, some "Multi-party authorization requires different operators")
        else (true, none)
      else (true, none)

/-! ## Audit log (`audit.py`) -/

/-- The `data` dict of an audit event.  Generic events carry a plain
string map; the convenience methods of `AuditLogger` and
`SecureDisplayEngine` produce the structured shapes below.  The content
fingerprint logged by `log_message_displayed` (`sha256(str(content))[:16]`)
is modelled as an ideal digest and carries the content itself. -/
inductive AuditData where
  | kv (pairs : List (String × String))
  | messageDisplayed (message_id : String) (tier : String) (content_hash : Content)
  | messageRejected (message_id : String) (reason : String)
  | signatureInvalid (message_id : String) (error : String)
  | replayDetected (message_id : String) (nonce : String)
  | tamperDetected (sequence : Nat) (expected_hash : String) (actual_hash : String)
deriving DecidableEq

/-- A hex SHA-256 digest as it appears in the audit log, idealized as
injective: the digest of a record's canonical JSON is the `digest`
constructor applied to the hashed fields, and any other string (the
genesis sentinel, or an arbitrary tampered value) is `raw`. -/
inductive Hash where
  | raw (s : String)
  | digest (sequence : Nat) (timestamp : String) (event_type : String)
      (device_id : String) (data : AuditData) (previous_hash : Hash)
deriving DecidableEq

/-- `AuditLogger.GENESIS_HASH = "0" * 64`. -/
def GENESIS_HASH : Hash :=
  Hash.raw "0000000000000000000000000000000000000000000000000000000000000000"

/-- The hex rendering of a digest, as stored inside `TamperDetected`
event data (an abstract stand-in for `hashlib.sha256(...).hexdigest()`). -/
def Hash.hex : Hash → String
  | .raw s => s
  | .digest sequence _ _ _ _ _ => "sha256-digest-" ++ toString sequence

/-- `AuditEvent` dataclass. -/
structure AuditEvent where
  sequence : Nat
  timestamp : String
  event_type : String
  device_id : String
  data : AuditData
  previous_hash : Hash
  entry_hash : Option Hash
deriving DecidableEq

/-- The fields covered by `AuditEvent.compute_hash` (everything except
`entry_hash`). -/
def AuditEvent.hashed_fields (e : AuditEvent) :
    Nat × String × String × String × AuditData × Hash :=
  (e.sequence, e.timestamp, e.event_type, e.device_id, e.data, e.previous_hash)

/-- `AuditEvent.compute_hash`: ideal SHA-256 of the canonical JSON of
every field except `entry_hash`. -/
def AuditEvent.compute_hash (e : AuditEvent) : Hash :=
  Hash.digest e.sequence e.timestamp e.event_type e.device_id e.data e.previous_hash

/-- `AuditLogger` state: device id, `_sequence`, `_last_hash`, and the
records currently in the log file. -/
structure AuditLogger where
  device_id : String
  sequence : Nat
  last_hash : Hash
  records : List AuditEvent
deriving DecidableEq

/-- A logger over a fresh (absent) log file. -/
def AuditLogger.fresh (device_id : String) : AuditLogger :=
  { device_id := device_id, sequence := 0, last_hash := GENESIS_HASH, records := [] }

/-- `AuditLogger.log`: assign the next sequence number, chain to
`_last_hash`, compute `entry_hash`, append the record to the file.  The
timestamp (`now`) is an explicit parameter. -/
def AuditLogger.log (st : AuditLogger) (event_type : String) (data : AuditData)
    (ts : String) : AuditEvent × AuditLogger :=
  let seq := st.sequence + 1
  let e0 : AuditEvent :=
    { sequence := seq, timestamp := ts, event_type := event_type,
      device_id := st.device_id, data := data, previous_hash := st.last_hash,
      entry_hash := none }
  let e := { e0 with entry_hash := some e0.compute_hash }
  (e, { st with sequence := seq, last_hash := e0.compute_hash,
                records := st.records ++ [e] })

/-- `AuditLogger.log_message_displayed`. -/
def AuditLogger.log_message_displayed (st : AuditLogger) (message_id : String)
    (tier : String) (content_hash : Content) (ts : String) : AuditLogger :=
  (st.log "message_displayed" (.messageDisplayed message_id tier content_hash) ts).2

/-- `AuditLogger.log_message_rejected`. -/
def AuditLogger.log_message_rejected (st : AuditLogger) (message_id : String)
    (reason : String) (ts : String) : AuditLogger :=
  (st.log "message_rejected" (.messageRejected message_id reason) ts).2

/-- `AuditLogger.log_signature_invalid`. -/
def AuditLogger.log_signature_invalid (st : AuditLogger) (message_id : String)
    (error : String) (ts : String) : AuditLogger :=
  (st.log "sig_invalid" (.signatureInvalid message_id error) ts).2

/-- One `log()` call's inputs, for reasoning about call sequences. -/
structure LogCall where
  event_type : String
  data : AuditData
  ts : String

/-- A sequence of `log()` calls. -/
def AuditLogger.log_many (st : AuditLogger) (calls : List LogCall) : AuditLogger :=
  calls.foldl (fun st c => (st.log c.event_type c.data c.ts).2) st

/-- The per-record scan of `AuditLogger.verify_chain`, accumulating the
sequence numbers of records whose chain link or entry hash mismatch; the
running hash becomes `entry_hash or computed`. -/
def verify_chain_scan (last_hash : Hash) : List AuditEvent → List Nat
  | [] => []
  | e :: rest =>
    let link_broken : List Nat := if e.previous_hash ≠ last_hash then [e.sequence] else []
    let computed := e.compute_hash
    let entry_broken : List Nat := if e.entry_hash ≠ some computed then [e.sequence] else []
    link_broken ++ entry_broken ++ verify_chain_scan (e.entry_hash.getD computed) rest

/-- `AuditLogger.verify_chain` over the records of a log file: full
re-scan from the genesis hash. -/
def verify_chain_file (records : List AuditEvent) : Bool × List Nat :=
  let broken := verify_chain_scan GENESIS_HASH records
  (broken.isEmpty, broken)

/-- `AuditLogger.verify_chain`: full re-scan of this logger's file. -/
def AuditLogger.verify_chain (st : AuditLogger) : Bool × List Nat :=
  verify_chain_file st.records

/-- The running last-hash after replaying a record list
(`entry_hash or computed` per record). -/
def chain_last (lh : Hash) : List AuditEvent → Hash
  | [] => lh
  | e :: rest => chain_last (e.entry_hash.getD e.compute_hash) rest

/-- The claim's chain invariant as a decidable scan: each record links to
the running hash and its `entry_hash` equals its recomputed hash. -/
def chain_ok (last_hash : Hash) : List AuditEvent → Bool
  | [] => true
  | e :: rest =>
    decide (e.previous_hash = last_hash) &&
    decide (e.entry_hash = some e.compute_hash) &&
    chain_ok e.compute_hash rest

/-! ### Loading an existing log (`AuditLogger._load_existing`) -/

/-- State threaded by `_load_existing`: the in-memory `_sequence` and
`_last_hash`, plus the `TamperDetected` records that the embedded
`self.log(...)` calls append to the file. -/
structure LoadState where
  sequence : Nat
  last_hash : Hash
  tamper_records : List AuditEvent
deriving DecidableEq

/-- The `TamperDetected` record written when a chain break is found at
`e`, given the in-memory sequence and expected hash at that point (this is
the `self.log(AuditEventType.TAMPER_DETECTED, ...)` call inside
`_load_existing`). -/
def tamper_event (device_id ts : String) (sequence : Nat) (expected : Hash)
    (e : AuditEvent) : AuditEvent :=
  let e0 : AuditEvent :=
    { sequence := sequence + 1, timestamp := ts, event_type := "tamper_detected",
      device_id := device_id,
      data := .tamperDetected e.sequence expected.hex e.previous_hash.hex,
      previous_hash := expected, entry_hash := none }
  { e0 with entry_hash := some e0.compute_hash }

/-- One iteration of the `_load_existing` loop: on a `previous_hash`
discontinuity, log a `TamperDetected` event (which bumps the in-memory
sequence and last-hash); an `entry_hash` mismatch is only reported to the
logger; then the in-memory state is overwritten from the stored record
(`self._sequence = event.sequence`,
`self._last_hash = event.entry_hash or computed_hash`). -/
def load_step (device_id ts : String) (st : LoadState) (e : AuditEvent) : LoadState :=
  let st1 :=
    if e.previous_hash ≠ st.last_hash then
      let t := tamper_event device_id ts st.sequence st.last_hash e
      { sequence := st.sequence + 1, last_hash := t.compute_hash,
        tamper_records := st.tamper_records ++ [t] }
    else st
  { st1 with sequence := e.sequence,
             last_hash := e.entry_hash.getD e.compute_hash }

/-- The `_load_existing` replay loop over the stored records. -/
def load_existing_scan (device_id ts : String) (st : LoadState) :
    List AuditEvent → LoadState
  | [] => st
  | e :: rest => load_existing_scan device_id ts (load_step device_id ts st e) rest

/-- `AuditLogger._load_existing` over the contents of an existing log
file, starting from sequence 0 and the genesis hash. -/
def load_existing (device_id ts : String) (records : List AuditEvent) : LoadState :=
  load_existing_scan device_id ts
    { sequence := 0, last_hash := GENESIS_HASH, tamper_records := [] } records

/-- Modelled from the spec (§4.3, amended reading): the `TamperDetected`
records that loading an existing log must emit — exactly one for each
record whose `previous_hash` does not match the running last-hash, with
loading continuing past every discontinuity to the end of the file. -/
def required_tamper_records (device_id ts : String) (last_hash : Hash)
    (sequence : Nat) : List AuditEvent → List AuditEvent
  | [] => []
  | e :: rest =>
    let here : List AuditEvent :=
      if e.previous_hash ≠ last_hash then
        [tamper_event device_id ts sequence last_hash e]
      else []
    here ++ required_tamper_records device_id ts
      (e.entry_hash.getD e.compute_hash) e.sequence rest

/-! ## Secure display engine (`secure_engine.py`) -/

/-- `DisplayResult` dataclass. -/
structure DisplayResult where
  success : Bool
  message_id : Option String
  error : Option String
  displayed_at : Option String
deriving DecidableEq

/-- `SecureDisplayEngine` state.  The backend is passed to `display` as a
function; the on-display / on-reject hooks are external side effects. -/
structure SecureDisplayEngine where
  device_id : String
  verifier : MessageVerifier
  audit : AuditLogger
  tier_validator : TierValidator
  current_message : Option SignedMessage

/-- The outcome of one `display` call: the returned `DisplayResult`, the
engine state after the call, and whether `backend.render` was invoked. -/
structure DisplayOutcome where
  result : DisplayResult
  engine : SecureDisplayEngine
  backend_called : Bool

/-- `message.content.get("template_id", "unknown")`. -/
def content_template_id (c : Content) : String :=
  (c.lookup "template_id").getD "unknown"

/-- The exception text attached to each `MessageVerifier.verify` error
(the f-strings of `signing.py`). -/
def VerifyError.text (v : MessageVerifier) (m : SignedMessage) : VerifyError → String
  | .deviceMismatch =>
      "Message for device " ++ m.device_id ++ ", not " ++ v.device_id
  | .expired =>
      "Message " ++ m.message_id ++ " expired at " ++ toString m.expires
  | .replayDetected =>
      "Nonce " ++ m.nonce ++ " already seen - replay attack?"
  | .noSignature => "Message has no signature"
  | .signatureInvalid => "Invalid signature for message " ++ m.message_id

/-- The rejection branch taken by `display` for each verification error:
the audit event written and the `DisplayResult.error` prefix, as in the
four `except` arms of `secure_engine.py`. -/
def display_verify_reject (st : SecureDisplayEngine) (m : SignedMessage)
    (v0 : MessageVerifier) (e : VerifyError) (ts : String) : DisplayOutcome :=
  let text := e.text v0 m
  let pair : AuditLogger × String :=
    match e with
    | .noSignature =>
        (st.audit.log_signature_invalid m.message_id text ts,
         "Signature verification failed: " ++ text)
    | .signatureInvalid =>
        (st.audit.log_signature_invalid m.message_id text ts,
         "Signature verification failed: " ++ text)
    | .expired =>
        (st.audit.log_message_rejected m.message_id "expired" ts,
         "Message expired: " ++ text)
    | .replayDetected =>
        ((st.audit.log "replay_detected" (.replayDetected m.message_id m.nonce) ts).2,
         "Replay attack detected: " ++ text)
    | .deviceMismatch =>
        (st.audit.log_message_rejected m.message_id text ts,
         "Invalid message: " ++ text)
  { result := { success := false, message_id := some m.message_id,
                error := some pair.2, displayed_at := none }
    engine := { st with audit := pair.1 }
    backend_called := false }

/-- `SecureDisplayEngine.display`: verify, resolve the tier string,
tier-validate, render, audit.  `render` is the backend capability
(`Except` models a raised exception); `now` is the verification clock and
`ts` the timestamp used for audit records and `displayed_at`. -/
def SecureDisplayEngine.display (st : SecureDisplayEngine)
    (render : Content → Except String Bool) (now : Int) (ts : String)
    (m : SignedMessage) : DisplayOutcome :=
  match MessageVerifier.verify st.verifier now m with
  | (some e, v) => display_verify_reject { st with verifier := v } m st.verifier e ts
  | (none, v) =>
    let st := { st with verifier := v }
    match AlertTier.fromString m.tier with
    | none =>
      let error := "Unknown tier: " ++ m.tier
      { result := { success := false, message_id := some m.message_id,
                    error := some error, displayed_at := none }
        engine := { st with audit := st.audit.log_message_rejected m.message_id error ts }
        backend_called := false }
    | some tier =>
      let template_id := content_template_id m.content
      match st.tier_validator.validate tier template_id m.authorizations with
      | (false, tier_error) =>
        let reason := tier_error.getD "None"
        let error := "Tier validation failed: " ++ reason
        { result := { success := false, message_id := some m.message_id,
                      error := some error, displayed_at := none }
          engine := { st with audit := st.audit.log_message_rejected m.message_id reason ts }
          backend_called := false }
      | (true, _) =>
        match render m.content with
        | .error exn =>
          let error := "Render failed: " ++ exn
          { result := { success := false, message_id := some m.message_id,
                        error := some error, displayed_at := none }
            engine := { st with audit := st.audit.log_message_rejected m.message_id error ts }
            backend_called := true }
        | .ok false =>
          let error := "Backend render returned false"
          { result := { success := false, message_id := some m.message_id,
                        error := some error, displayed_at := none }
            engine := { st with audit := st.audit.log_message_rejected m.message_id error ts }
            backend_called := true }
        | .ok true =>
          { result := { success := true, message_id := some m.message_id,
                        error := none, displayed_at := some ts }
            engine := { st with
                          audit := st.audit.log_message_displayed m.message_id m.tier
                            m.content ts
                          current_message := some m }
            backend_called := true }

/-! ## Theorems -/

/-- A list with a repeated element is strictly shortened by `dedup`. -/
lemma dedup_length_ne_of_not_nodup {l : List String} (h : ¬ l.Nodup) :
    l.length ≠ l.dedup.length := by
  intro hlen
  have heq := (List.dedup_sublist l).eq_of_length hlen.symm
  exact h (heq ▸ l.nodup_dedup)

/-- C10: for the ipaws tier, `TierValidator.validate` returns invalid for
every template id and every authorization list: ipaws does not require
human authorization, but `AUTONOMOUS_TEMPLATES` has no entry for it, so no
ipaws message can pass tier validation. -/
theorem validate_ipaws_always_invalid_C10 (tv : TierValidator)
    (template_id : String) (auths : List Authorization) :
    (tv.validate .ipaws template_id auths).1 = false := by
  simp [TierValidator.validate, AlertTier.requires_human, is_template_autonomous,
    AUTONOMOUS_TEMPLATES]

/-- C8: `get_tier_for_detection` maps fire/active_shooter/explosion to
emergency at confidence ≥ 0.9, warning at ≥ 0.7, else advisory;
smoke/fight/medical_emergency to warning at ≥ 0.85, else advisory;
crowd/congestion/weather to informational; every other type to advisory. -/
theorem get_tier_for_detection_C8 (t : String) (c : ℚ) :
    ((t = "fire" ∨ t = "active_shooter" ∨ t = "explosion") →
      (0.9 ≤ c → get_tier_for_detection t c = .emergency) ∧
      (0.7 ≤ c → c < 0.9 → get_tier_for_detection t c = .warning) ∧
      (c < 0.7 → get_tier_for_detection t c = .advisory)) ∧
    ((t = "smoke" ∨ t = "fight" ∨ t = "medical_emergency") →
      (0.85 ≤ c → get_tier_for_detection t c = .warning) ∧
      (c < 0.85 → get_tier_for_detection t c = .advisory)) ∧
    ((t = "crowd" ∨ t = "congestion" ∨ t = "weather") →
      get_tier_for_detection t c = .informational) ∧
    (t ∉ (["fire", "active_shooter", "explosion", "smoke", "fight",
        "medical_emergency", "crowd", "congestion", "weather"] : List String) →
      get_tier_for_detection t c = .advisory) := by
  refine ⟨?_, ?_, ?_, ?_⟩
  · intro ht
    refine ⟨fun h9 => ?_, fun h7 h9 => ?_, fun h7 => ?_⟩
    · unfold get_tier_for_detection
      rw [if_pos ht, if_pos h9]
    · unfold get_tier_for_detection
      rw [if_pos ht, if_neg (not_le.mpr h9), if_pos h7]
    · unfold get_tier_for_detection
      rw [if_pos ht, if_neg (not_le.mpr (h7.trans (by norm_num))),
        if_neg (not_le.mpr h7)]
  · intro ht
    have hne : ¬ (t = "fire" ∨ t = "active_shooter" ∨ t = "explosion") := by
      rcases ht with rfl | rfl | rfl <;> decide
    refine ⟨fun h85 => ?_, fun h85 => ?_⟩
    · unfold get_tier_for_detection
      rw [if_neg hne, if_pos ht, if_pos h85]
    · unfold get_tier_for_detection
      rw [if_neg hne, if_pos ht, if_neg (not_le.mpr h85)]
  · intro ht
    have hne1 : ¬ (t = "fire" ∨ t = "active_shooter" ∨ t = "explosion") := by
      rcases ht with rfl | rfl | rfl <;> decide
    have hne2 : ¬ (t = "smoke" ∨ t = "fight" ∨ t = "medical_emergency") := by
      rcases ht with rfl | rfl | rfl <;> decide
    unfold get_tier_for_detection
    rw [if_neg hne1, if_neg hne2, if_pos ht]
  · intro hall
    have hne1 : ¬ (t = "fire" ∨ t = "active_shooter" ∨ t = "explosion") := by
      intro h; apply hall; rcases h with rfl | rfl | rfl <;> simp
    have hne2 : ¬ (t = "smoke" ∨ t = "fight" ∨ t = "medical_emergency") := by
      intro h; apply hall; rcases h with rfl | rfl | rfl <;> simp
    have hne3 : ¬ (t = "crowd" ∨ t = "congestion" ∨ t = "weather") := by
      intro h; apply hall; rcases h with rfl | rfl | rfl <;> simp
    unfold get_tier_for_detection
    rw [if_neg hne1, if_neg hne2, if_neg hne3]

/-- Witness for C8: the spec's four concrete examples, plus an unknown
type. -/
theorem get_tier_for_detection_C8_witness :
    get_tier_for_detection "fire" 0.95 = .emergency ∧
    get_tier_for_detection "fire" 0.75 = .warning ∧
    get_tier_for_detection "smoke" 0.9 = .warning ∧
    get_tier_for_detection "crowd" 0.99 = .informational ∧
    get_tier_for_detection "unknown_kind" 0.99 = .advisory :=
  ⟨((get_tier_for_detection_C8 "fire" 0.95).1 (Or.inl rfl)).1 (by norm_num),
   (((get_tier_for_detection_C8 "fire" 0.75).1 (Or.inl rfl)).2.1 (by norm_num)
     (by norm_num)),
   ((get_tier_for_detection_C8 "smoke" 0.9).2.1 (Or.inl rfl)).1 (by norm_num),
   (get_tier_for_detection_C8 "crowd" 0.99).2.2.1 (Or.inl rfl),
   (get_tier_for_detection_C8 "unknown_kind" 0.99).2.2.2 (by decide)⟩

/-- C7: for the emergency tier, `TierValidator.validate` rejects any list
in which two authorizations share an operator id, rejects any list with
fewer than 2 authorizations, and accepts two authorizations with distinct
operators that pass the (possibly absent) operator allow-list. -/
theorem validate_emergency_C7 (tv : TierValidator) (template_id : String) :
    (∀ auths : List Authorization,
      ¬ (auths.map (fun a => a.operator_id)).Nodup →
      (tv.validate .emergency template_id auths).1 = false) ∧
    (∀ auths : List Authorization, auths.length < 2 →
      (tv.validate .emergency template_id auths).1 = false) ∧
    (∀ a1 a2 : Authorization, a1.operator_id ≠ a2.operator_id →
      (∀ ops, tv.allowed_operators = some ops → ops ≠ [] → a1.operator_id ∈ ops) →
      (∀ ops, tv.allowed_operators = some ops → ops ≠ [] → a2.operator_id ∈ ops) →
      tv.validate .emergency template_id [a1, a2] = (true, none)) := by
  refine ⟨?_, ?_, ?_⟩
  · intro auths hdup
    unfold TierValidator.validate
    rw [if_neg (by simp [AlertTier.requires_human])]
    by_cases hlen : auths.length < AlertTier.min_authorizations .emergency
    · rw [if_pos hlen]
    · rw [if_neg hlen]
      rcases hfind : (match tv.allowed_operators with
        | none => none
        | some ops =>
          if ops = [] then none
          else auths.find? (fun (a : Authorization) => decide (a.operator_id ∉ ops))) with
        _ | a
      · simp only [hfind]
        rw [if_pos (by simp [AlertTier.requires_multiparty])]
        rw [if_pos (dedup_length_ne_of_not_nodup hdup)]
      · simp only [hfind]
  · intro auths hlen
    unfold TierValidator.validate
    rw [if_neg (by simp [AlertTier.requires_human])]
    rw [if_pos (by simpa [AlertTier.min_authorizations] using hlen)]
  · intro a1 a2 hne hok1 hok2
    unfold TierValidator.validate
    rw [if_neg (by simp [AlertTier.requires_human])]
    rw [if_neg (by simp [AlertTier.min_authorizations])]
    have hfind : (match tv.allowed_operators with
        | none => none
        | some ops =>
          if ops = [] then none
          else [a1, a2].find? (fun (a : Authorization) => decide (a.operator_id ∉ ops)))
        = (none : Option Authorization) := by
      rcases hops : tv.allowed_operators with _ | ops
      · rfl
      · show (if ops = [] then none
          else [a1, a2].find? (fun (a : Authorization) => decide (a.operator_id ∉ ops)))
          = (none : Option Authorization)
        by_cases hemp : ops = []
        · simp [hemp]
        · rw [if_neg hemp]
          rw [List.find?_eq_none]
          intro a ha
          simp only [List.mem_cons, List.not_mem_nil, or_false] at ha
          rcases ha with rfl | rfl
          · simp [hok1 ops hops hemp]
          · simp [hok2 ops hops hemp]
    rw [hfind]
    rw [if_pos (by simp [AlertTier.requires_multiparty])]
    have hnodup : ([a1.operator_id, a2.operator_id] : List String).Nodup := by
      simp [hne]
    rw [if_neg (by simp [List.Nodup.dedup hnodup])]

/-- Witness for C7: the spec's concrete examples `[op1, op1]`, `[op1]`
and `[op1, op2]` on a validator with no operator allow-list. -/
theorem validate_emergency_C7_witness :
    (TierValidator.validate ⟨none⟩ .emergency "fire-evacuation"
      [⟨"op1", "t1", "dashboard"⟩, ⟨"op1", "t2", "dashboard"⟩]).1 = false ∧
    (TierValidator.validate ⟨none⟩ .emergency "fire-evacuation"
      [⟨"op1", "t1", "dashboard"⟩]).1 = false ∧
    TierValidator.validate ⟨none⟩ .emergency "fire-evacuation"
      [⟨"op1", "t1", "dashboard"⟩, ⟨"op2", "t2", "dashboard"⟩] = (true, none) :=
  ⟨(validate_emergency_C7 ⟨none⟩ "fire-evacuation").1
      [⟨"op1", "t1", "dashboard"⟩, ⟨"op1", "t2", "dashboard"⟩] (by decide),
   (validate_emergency_C7 ⟨none⟩ "fire-evacuation").2.1
      [⟨"op1", "t1", "dashboard"⟩] (by decide),
   (validate_emergency_C7 ⟨none⟩ "fire-evacuation").2.2
      ⟨"op1", "t1", "dashboard"⟩ ⟨"op2", "t2", "dashboard"⟩ (by decide)
      (fun ops h => nomatch h) (fun ops h => nomatch h)⟩

/-- A message whose device id matches the verifier (or is the wildcard)
passes the device-binding gate. -/
lemma device_gate_pass {v : MessageVerifier} {m : SignedMessage}
    (h : m.device_id = v.device_id ∨ m.device_id = "*") :
    ¬ (m.device_id ≠ v.device_id ∧ m.device_id ≠ "*") := by
  rcases h with h | h <;> simp [h]

/-- C2: `MessageVerifier.verify` checks device binding, expiration,
replay, then signature, raising the first failure: a mismatched device id
fails with the device error regardless of the signature (no crypto check),
an expired message fails before the replay and signature checks, a seen
nonce fails before the signature check, and a message created with
`ttl_seconds ≤ 0` always fails as expired once the clock has advanced. -/
theorem verify_check_order_C2 (v : MessageVerifier) (now : Int) (m : SignedMessage) :
    (m.device_id ≠ v.device_id → m.device_id ≠ "*" →
      MessageVerifier.verify v now m = (some .deviceMismatch, v)) ∧
    ((m.device_id = v.device_id ∨ m.device_id = "*") → now > m.expires →
      MessageVerifier.verify v now m = (some .expired, v)) ∧
    ((m.device_id = v.device_id ∨ m.device_id = "*") → ¬ now > m.expires →
      m.nonce ∈ v.seen_nonces →
      MessageVerifier.verify v now m = (some .replayDetected, v)) ∧
    ((m.device_id = v.device_id ∨ m.device_id = "*") → ¬ now > m.expires →
      m.nonce ∉ v.seen_nonces → m.signature = none →
      MessageVerifier.verify v now m = (some .noSignature, v)) ∧
    (∀ sig, (m.device_id = v.device_id ∨ m.device_id = "*") → ¬ now > m.expires →
      m.nonce ∉ v.seen_nonces → m.signature = some sig →
      sig ≠ ed25519_sign v.public_key m.payload_for_signing →
      MessageVerifier.verify v now m = (some .signatureInvalid, v)) ∧
    (∀ (key : Nat) (dev tier : String) (content : Content) (ttl : Int)
        (auths : List Authorization) (now_c : Int) (mid nonce : String),
      ttl ≤ 0 → now_c < now → (dev = v.device_id ∨ dev = "*") →
      MessageVerifier.verify v now
        (MessageSigner.create_signed_message key dev tier content ttl auths
          now_c mid nonce)
        = (some .expired, v)) := by
  refine ⟨?_, ?_, ?_, ?_, ?_, ?_⟩
  · intro h1 h2
    unfold MessageVerifier.verify
    rw [if_pos ⟨h1, h2⟩]
  · intro hdev hexp
    unfold MessageVerifier.verify
    rw [if_neg (device_gate_pass hdev), if_pos (by simp [SignedMessage.is_expired, hexp])]
  · intro hdev hexp hseen
    unfold MessageVerifier.verify
    rw [if_neg (device_gate_pass hdev),
      if_neg (by simp [SignedMessage.is_expired, hexp]), if_pos hseen]
  · intro hdev hexp hseen hsig
    unfold MessageVerifier.verify
    rw [if_neg (device_gate_pass hdev),
      if_neg (by simp [SignedMessage.is_expired, hexp]), if_neg hseen, hsig]
  · intro sig hdev hexp hseen hsig hbad
    unfold MessageVerifier.verify
    rw [if_neg (device_gate_pass hdev),
      if_neg (by simp [SignedMessage.is_expired, hexp]), if_neg hseen, hsig]
    simp only [if_neg hbad]
  · intro key dev tier content ttl auths now_c mid nonce httl hclock hdev
    unfold MessageVerifier.verify
    rw [if_neg (device_gate_pass (m := MessageSigner.create_signed_message key dev
      tier content ttl auths now_c mid nonce) (by exact hdev))]
    rw [if_pos (by
      show (MessageSigner.create_signed_message key dev tier content ttl auths
        now_c mid nonce).is_expired now = true
      simp only [MessageSigner.create_signed_message, MessageSigner.sign_message,
        SignedMessage.is_expired, decide_eq_true_eq]
      omega)]

/-- Witness for C2: a mismatched device id is rejected as a device
mismatch, and a message created with `ttl_seconds = 0` is rejected as
expired one clock tick later. -/
theorem verify_check_order_C2_witness :
    MessageVerifier.verify (MessageVerifier.init 7 "devA") 0
      { message_id := "m1", device_id := "devB", timestamp := 0, expires := 100,
        nonce := "n1", tier := "informational", content := [],
        authorizations := [], signature := none }
      = (some .deviceMismatch, MessageVerifier.init 7 "devA") ∧
    MessageVerifier.verify (MessageVerifier.init 7 "devA") 10
      (MessageSigner.create_signed_message 7 "devA" "informational" [] 0 [] 0 "m2" "n2")
      = (some .expired, MessageVerifier.init 7 "devA") :=
  ⟨(verify_check_order_C2 (MessageVerifier.init 7 "devA") 0
      { message_id := "m1", device_id := "devB", timestamp := 0, expires := 100,
        nonce := "n1", tier := "informational", content := [],
        authorizations := [], signature := none }).1 (by decide) (by decide),
   (verify_check_order_C2 (MessageVerifier.init 7 "devA") 10
      (MessageSigner.create_signed_message 7 "devA" "informational" [] 0 [] 0
        "m2" "n2")).2.2.2.2.2 7 "devA" "informational" [] 0 [] 0 "m2" "n2"
      (by decide) (by decide) (Or.inl rfl)⟩

/-- The seen-set size after `record_nonce`: one more element, minus the
`_max_nonces // 2` evicted when the capacity was exceeded. -/
lemma record_nonce_length (v : MessageVerifier) (n : String) :
    (v.record_nonce n).seen_nonces.length =
      (if v.seen_nonces.length + 1 > v.max_nonces then
        v.seen_nonces.length + 1 - v.max_nonces / 2
      else v.seen_nonces.length + 1) := by
  have happ : (v.seen_nonces ++ [n]).length = v.seen_nonces.length + 1 := by
    simp
  simp only [MessageVerifier.record_nonce]
  split
  · next h =>
    rw [happ] at h
    rw [if_pos h]
    show ((v.seen_nonces ++ [n]).drop (v.max_nonces / 2)).length
      = v.seen_nonces.length + 1 - v.max_nonces / 2
    rw [List.length_drop, happ]
  · next h =>
    rw [happ] at h
    rw [if_neg h]
    show (v.seen_nonces ++ [n]).length = v.seen_nonces.length + 1
    exact happ

/-- `record_nonce_set` only touches the seen-set. -/
lemma record_nonce_set_device_id (v : MessageVerifier) (n : String)
    (iter : List String) :
    (v.record_nonce_set n iter).device_id = v.device_id := by
  simp only [MessageVerifier.record_nonce_set]
  split <;> rfl

/-- Filtering a duplicate-free list down to the elements outside its own
`k`-prefix drops exactly that prefix. -/
lemma filter_not_mem_take (l : List String) (k : Nat) (h : l.Nodup) :
    l.filter (fun x => decide (x ∉ l.take k)) = l.drop k := by
  have hsplit := List.take_append_drop k l
  have hdisj := List.disjoint_take_drop h (le_refl k)
  have h1 : (l.take k).filter (fun x => decide (x ∉ l.take k)) = [] := by
    apply List.filter_eq_nil_iff.mpr
    intro a ha
    simp [ha]
  have h2 : (l.drop k).filter (fun x => decide (x ∉ l.take k)) = l.drop k := by
    apply List.filter_eq_self.mpr
    intro a ha
    simp only [decide_eq_true_eq]
    exact fun hmem => hdisj hmem ha
  calc l.filter (fun x => decide (x ∉ l.take k))
      = (l.take k ++ l.drop k).filter (fun x => decide (x ∉ l.take k)) := by
        rw [hsplit]
    _ = [] ++ l.drop k := by rw [List.filter_append, h1, h2]
    _ = l.drop k := List.nil_append _

/-- `record_nonce` is exactly `record_nonce_set` at the insertion
iteration order: for a duplicate-free cache, evicting the elements of the
order's `max // 2`-prefix is dropping the oldest `max // 2` elements. -/
lemma record_nonce_eq_set (v : MessageVerifier) (n : String)
    (hnd : (v.seen_nonces ++ [n]).Nodup) :
    v.record_nonce n = v.record_nonce_set n (v.seen_nonces ++ [n]) := by
  simp only [MessageVerifier.record_nonce, MessageVerifier.record_nonce_set]
  by_cases h : (v.seen_nonces ++ [n]).length > v.max_nonces
  · rw [if_pos h, if_pos h, filter_not_mem_take _ _ hnd]
  · rw [if_neg h, if_neg h]

/-- Counterexample for C3: with the replay cache at capacity (the
verifier's state after `_max_nonces` successful verifies; capacity 2 here,
10000 in the source), recording the fresh nonce overflows the cache, and
`list(self._seen_nonces)[:max // 2]` may enumerate the set with the
just-recorded nonce first — an admissible iteration order, as the
permutation conjunct states — so the eviction removes it.  A second
verify of the very same signed message then passes the replay gate and
succeeds, instead of failing with replay detection. -/
theorem sign_then_verify_once_C3_counterexample :
    List.Perm ["n1", "a", "b"]
      (({ device_id := "devA", seen_nonces := ["a", "b"], max_nonces := 2,
          public_key := 7 } : MessageVerifier).seen_nonces ++ ["n1"]) ∧
    (MessageVerifier.verify_set
      { device_id := "devA", seen_nonces := ["a", "b"], max_nonces := 2,
        public_key := 7 } 0
      (MessageSigner.create_signed_message 7 "devA" "informational" [] 100 [] 0
        "m1" "n1") ["n1", "a", "b"]).1 = none ∧
    (MessageVerifier.verify_set
      (MessageVerifier.verify_set
        { device_id := "devA", seen_nonces := ["a", "b"], max_nonces := 2,
          public_key := 7 } 0
        (MessageSigner.create_signed_message 7 "devA" "informational" [] 100 [] 0
          "m1" "n1") ["n1", "a", "b"]).2 0
      (MessageSigner.create_signed_message 7 "devA" "informational" [] 100 [] 0
        "m1" "n1") ["a", "b", "n1"]).1 = none ∧
    ((none : Option VerifyError) ≠ some VerifyError.replayDetected) :=
  ⟨by decide, by decide, by decide, by decide⟩

/-- C3 (amended): a message produced by `MessageSigner.create_signed_message`
that has not expired verifies successfully on the first call on the
matching device for every iteration order of the replay cache, and a
second verify of a message carrying the same nonce on the same verifier
(passing the earlier device and expiry gates) fails with replay detection
whenever the recorded nonce is still in the seen-set — in particular
always when the cache was below capacity at recording time.  When
recording overflows the capacity, the arbitrary evicted half may include
the just-recorded nonce, after which a replay verifies again (see the
counterexample). -/
theorem sign_then_verify_once_C3
    (v : MessageVerifier) (key : Nat) (tier : String) (content : Content)
    (ttl : Int) (auths : List Authorization) (now_c now : Int)
    (mid nonce : String) (iter : List String)
    (hkey : v.public_key = key)
    (hfresh : nonce ∉ v.seen_nonces)
    (hexp : ¬ now > now_c + ttl) :
    MessageVerifier.verify_set v now
      (MessageSigner.create_signed_message key v.device_id tier content ttl auths
        now_c mid nonce) iter
      = (none, v.record_nonce_set nonce iter) ∧
    (∀ (m2 : SignedMessage) (now2 : Int) (iter2 : List String),
      nonce ∈ (v.record_nonce_set nonce iter).seen_nonces →
      m2.nonce = nonce →
      (m2.device_id = v.device_id ∨ m2.device_id = "*") →
      ¬ now2 > m2.expires →
      (MessageVerifier.verify_set (v.record_nonce_set nonce iter) now2 m2 iter2).1
        = some .replayDetected) ∧
    (v.seen_nonces.length + 1 ≤ v.max_nonces →
      nonce ∈ (v.record_nonce_set nonce iter).seen_nonces) := by
  refine ⟨?_, ?_, ?_⟩
  · simp only [MessageVerifier.verify_set, MessageSigner.create_signed_message,
      MessageSigner.sign_message, SignedMessage.payload_for_signing,
      SignedMessage.is_expired, ed25519_sign, hkey]
    simp [hfresh, hexp]
  · intro m2 now2 iter2 hmem h1 h2 h3
    have h2a : m2.device_id = (v.record_nonce_set nonce iter).device_id
        ∨ m2.device_id = "*" := by
      rw [record_nonce_set_device_id]
      exact h2
    unfold MessageVerifier.verify_set
    rw [if_neg (device_gate_pass h2a),
      if_neg (by simp [SignedMessage.is_expired, h3]),
      if_pos (h1 ▸ hmem)]
  · intro hle
    simp only [MessageVerifier.record_nonce_set]
    split
    · next h =>
      exfalso
      simp only [List.length_append, List.length_cons, List.length_nil] at h
      omega
    · exact List.mem_append_right _ (List.mem_singleton.mpr rfl)

/-- Witness for C3 (amended): a concrete fresh verifier (below capacity)
accepts a newly signed message and rejects its immediate replay. -/
theorem sign_then_verify_once_C3_witness :
    MessageVerifier.verify_set (MessageVerifier.init 7 "devA") 10
      (MessageSigner.create_signed_message 7 "devA" "informational"
        [("template_id", "crowd-count")] 300 [] 0 "m1" "n1") ["n1"]
      = (none, (MessageVerifier.init 7 "devA").record_nonce_set "n1" ["n1"]) ∧
    (MessageVerifier.verify_set
      ((MessageVerifier.init 7 "devA").record_nonce_set "n1" ["n1"]) 10
      (MessageSigner.create_signed_message 7 "devA" "informational"
        [("template_id", "crowd-count")] 300 [] 0 "m1" "n1") ["n1"]).1
      = some .replayDetected := by
  have h := sign_then_verify_once_C3 (MessageVerifier.init 7 "devA") 7
    "informational" [("template_id", "crowd-count")] 300 [] 0 10 "m1" "n1" ["n1"]
    rfl (by decide) (by decide)
  exact ⟨h.1, h.2.1
    (MessageSigner.create_signed_message 7 "devA" "informational"
      [("template_id", "crowd-count")] 300 [] 0 "m1" "n1") 10 ["n1"]
    (h.2.2 (by decide)) rfl (Or.inl rfl) (by decide)⟩

/-- C4: `MessageVerifier.verify` records the nonce only on success — on
any error the verifier state is unchanged — and the seen-set stays
bounded by `_max_nonces` (capacity at least 2) because exceeding the
capacity evicts `_max_nonces // 2` (roughly half) of its elements. -/
theorem nonce_recorded_on_success_only_C4 (v : MessageVerifier) (now : Int)
    (m : SignedMessage) :
    (∀ e : VerifyError, (MessageVerifier.verify v now m).1 = some e →
      (MessageVerifier.verify v now m).2 = v) ∧
    (2 ≤ v.max_nonces → v.seen_nonces.length ≤ v.max_nonces →
      ((MessageVerifier.verify v now m).2).seen_nonces.length ≤ v.max_nonces) ∧
    ((MessageVerifier.verify v now m).1 = none →
      v.seen_nonces.length + 1 > v.max_nonces →
      ((MessageVerifier.verify v now m).2).seen_nonces.length
        = v.seen_nonces.length + 1 - v.max_nonces / 2) := by
  have errcase : ∀ err : VerifyError,
      MessageVerifier.verify v now m = (some err, v) →
      (∀ e : VerifyError, (MessageVerifier.verify v now m).1 = some e →
        (MessageVerifier.verify v now m).2 = v) ∧
      (2 ≤ v.max_nonces → v.seen_nonces.length ≤ v.max_nonces →
        ((MessageVerifier.verify v now m).2).seen_nonces.length ≤ v.max_nonces) ∧
      ((MessageVerifier.verify v now m).1 = none →
        v.seen_nonces.length + 1 > v.max_nonces →
        ((MessageVerifier.verify v now m).2).seen_nonces.length
          = v.seen_nonces.length + 1 - v.max_nonces / 2) := by
    intro err hv
    rw [hv]
    exact ⟨fun _ _ => rfl, fun _ hlen => hlen, fun h => nomatch h⟩
  by_cases h1 : m.device_id ≠ v.device_id ∧ m.device_id ≠ "*"
  · exact errcase .deviceMismatch (by
      unfold MessageVerifier.verify
      rw [if_pos h1])
  · by_cases h2 : m.is_expired now
    · exact errcase .expired (by
        unfold MessageVerifier.verify
        rw [if_neg h1, if_pos h2])
    · by_cases h3 : m.nonce ∈ v.seen_nonces
      · exact errcase .replayDetected (by
          unfold MessageVerifier.verify
          rw [if_neg h1, if_neg h2, if_pos h3])
      · rcases hs : m.signature with _ | sig
        · exact errcase .noSignature (by
            unfold MessageVerifier.verify
            rw [if_neg h1, if_neg h2, if_neg h3, hs])
        · by_cases h4 : sig = ed25519_sign v.public_key m.payload_for_signing
          · have hv : MessageVerifier.verify v now m = (none, v.record_nonce m.nonce) := by
              unfold MessageVerifier.verify
              rw [if_neg h1, if_neg h2, if_neg h3, hs]
              simp only [if_pos h4]
            rw [hv]
            refine ⟨?_, ?_, ?_⟩
            · exact fun e h => nomatch h
            · intro hmax hlen
              show (v.record_nonce m.nonce).seen_nonces.length ≤ v.max_nonces
              rw [record_nonce_length]
              split <;> omega
            · intro _ hover
              show (v.record_nonce m.nonce).seen_nonces.length
                = v.seen_nonces.length + 1 - v.max_nonces / 2
              rw [record_nonce_length, if_pos hover]
          · exact errcase .signatureInvalid (by
              unfold MessageVerifier.verify
              rw [if_neg h1, if_neg h2, if_neg h3, hs]
              simp only [if_neg h4])

/-- Witness for C4: a rejected message leaves a concrete verifier
untouched, and a successful verify on a full capacity-2 verifier evicts
`2 // 2 = 1` element, keeping the seen-set at its bound. -/
theorem nonce_recorded_on_success_only_C4_witness :
    (MessageVerifier.verify (MessageVerifier.init 7 "devA") 0
      { message_id := "m1", device_id := "devB", timestamp := 0, expires := 100,
        nonce := "n1", tier := "informational", content := [],
        authorizations := [], signature := none }).2
      = MessageVerifier.init 7 "devA" ∧
    ((MessageVerifier.verify
      { device_id := "devA", seen_nonces := ["a", "b"], max_nonces := 2,
        public_key := 7 } 0
      (MessageSigner.create_signed_message 7 "devA" "informational" [] 100 [] 0
        "m2" "n2")).2).seen_nonces.length = 2 :=
  ⟨(nonce_recorded_on_success_only_C4 (MessageVerifier.init 7 "devA") 0
      { message_id := "m1", device_id := "devB", timestamp := 0, expires := 100,
        nonce := "n1", tier := "informational", content := [],
        authorizations := [], signature := none }).1 .deviceMismatch (by decide),
   (nonce_recorded_on_success_only_C4
      { device_id := "devA", seen_nonces := ["a", "b"], max_nonces := 2,
        public_key := 7 } 0
      (MessageSigner.create_signed_message 7 "devA" "informational" [] 100 [] 0
        "m2" "n2")).2.2 (by decide) (by decide)⟩

/-- Counterexample for C5: mutating the signed `device_id` field of a
freshly signed message to a different device and verifying makes the first
gate fail, so verify raises the device-mismatch error, not
`SignatureInvalid` as the claim states for every signed field. -/
theorem mutated_field_C5_counterexample :
    (MessageVerifier.verify (MessageVerifier.init 7 "devA") 0
      { MessageSigner.create_signed_message 7 "devA" "informational"
          [("template_id", "crowd-count")] 300 [] 0 "m1" "n1"
        with device_id := "devC" }).1 = some .deviceMismatch ∧
    (VerifyError.deviceMismatch ≠ VerifyError.signatureInvalid) := by
  exact ⟨by decide, by decide⟩

/-- C5 (amended): mutating any signed field of a signed message (leaving
the signature itself in place) always makes verify fail; when the mutated
message still passes the device-binding, expiration and replay gates, the
failure is specifically `SignatureInvalid`. -/
theorem mutated_field_fails_C5 (v : MessageVerifier) (now : Int)
    (m m2 : SignedMessage) (key : Nat)
    (hsig : m.signature = some (ed25519_sign key m.payload_for_signing))
    (hkey : v.public_key = key)
    (hsame : m2.signature = m.signature)
    (hdiff : m2.payload_for_signing ≠ m.payload_for_signing) :
    (MessageVerifier.verify v now m2).1 ≠ none ∧
    ((m2.device_id = v.device_id ∨ m2.device_id = "*") → ¬ now > m2.expires →
      m2.nonce ∉ v.seen_nonces →
      MessageVerifier.verify v now m2 = (some .signatureInvalid, v)) := by
  have hbad : ed25519_sign key m.payload_for_signing
      ≠ ed25519_sign v.public_key m2.payload_for_signing := by
    rw [hkey]
    intro h
    exact hdiff (congrArg Sig.payload h).symm
  have hfinal : (m2.device_id = v.device_id ∨ m2.device_id = "*") →
      ¬ now > m2.expires → m2.nonce ∉ v.seen_nonces →
      MessageVerifier.verify v now m2 = (some .signatureInvalid, v) := by
    intro hdev hexp hseen
    unfold MessageVerifier.verify
    rw [if_neg (device_gate_pass hdev),
      if_neg (by simp [SignedMessage.is_expired, hexp]), if_neg hseen, hsame, hsig]
    show (if ed25519_sign key m.payload_for_signing
        = ed25519_sign v.public_key m2.payload_for_signing then
        (none, v.record_nonce m2.nonce)
      else (some VerifyError.signatureInvalid, v)) = (some .signatureInvalid, v)
    rw [if_neg hbad]
  refine ⟨?_, hfinal⟩
  intro hnone
  by_cases h1 : m2.device_id ≠ v.device_id ∧ m2.device_id ≠ "*"
  · unfold MessageVerifier.verify at hnone
    rw [if_pos h1] at hnone
    exact nomatch hnone
  · have hdev : m2.device_id = v.device_id ∨ m2.device_id = "*" := by
      rcases not_and_or.mp h1 with h | h
      · exact Or.inl (not_not.mp h)
      · exact Or.inr (not_not.mp h)
    by_cases h2 : now > m2.expires
    · unfold MessageVerifier.verify at hnone
      rw [if_neg (device_gate_pass hdev),
        if_pos (by simp [SignedMessage.is_expired, h2])] at hnone
      exact nomatch hnone
    · by_cases h3 : m2.nonce ∈ v.seen_nonces
      · unfold MessageVerifier.verify at hnone
        rw [if_neg (device_gate_pass hdev),
          if_neg (by simp [SignedMessage.is_expired, h2]), if_pos h3] at hnone
        exact nomatch hnone
      · rw [hfinal hdev h2 h3] at hnone
        exact nomatch hnone

/-- Witness for C5 (amended): mutating `device_id` to the wildcard keeps
the earlier gates passing, and verification then fails with
`SignatureInvalid`. -/
theorem mutated_field_fails_C5_witness :
    ((MessageVerifier.verify (MessageVerifier.init 7 "devA") 0
      { MessageSigner.create_signed_message 7 "devA" "informational"
          [("template_id", "crowd-count")] 300 [] 0 "m1" "n1"
        with device_id := "*" }).1 ≠ none) ∧
    MessageVerifier.verify (MessageVerifier.init 7 "devA") 0
      { MessageSigner.create_signed_message 7 "devA" "informational"
          [("template_id", "crowd-count")] 300 [] 0 "m1" "n1"
        with device_id := "*" }
      = (some .signatureInvalid, MessageVerifier.init 7 "devA") := by
  have h := mutated_field_fails_C5 (MessageVerifier.init 7 "devA") 0
    (MessageSigner.create_signed_message 7 "devA" "informational"
      [("template_id", "crowd-count")] 300 [] 0 "m1" "n1")
    { MessageSigner.create_signed_message 7 "devA" "informational"
        [("template_id", "crowd-count")] 300 [] 0 "m1" "n1"
      with device_id := "*" }
    7 rfl rfl rfl (by decide)
  exact ⟨h.1, h.2 (Or.inr rfl) (by decide) (by decide)⟩

/-- C1: `SecureDisplayEngine.display` never invokes the backend when an
upstream check fails: if `MessageVerifier.verify` raises any error, or the
tier string is unknown, or `TierValidator.validate` returns not-ok, then
the result is a failure and `backend.render` is never called. -/
theorem display_never_renders_on_failure_C1 (st : SecureDisplayEngine)
    (render : Content → Except String Bool) (now : Int) (ts : String)
    (m : SignedMessage)
    (h : (MessageVerifier.verify st.verifier now m).1 ≠ none
      ∨ AlertTier.fromString m.tier = none
      ∨ ∀ t, AlertTier.fromString m.tier = some t →
          (st.tier_validator.validate t (content_template_id m.content)
            m.authorizations).1 = false) :
    (st.display render now ts m).result.success = false ∧
    (st.display render now ts m).backend_called = false := by
  rcases hv : MessageVerifier.verify st.verifier now m with ⟨err, v⟩
  cases err with
  | some e =>
    unfold SecureDisplayEngine.display
    rw [hv]
    exact ⟨rfl, rfl⟩
  | none =>
    have h2 : AlertTier.fromString m.tier = none
        ∨ ∀ t, AlertTier.fromString m.tier = some t →
            (st.tier_validator.validate t (content_template_id m.content)
              m.authorizations).1 = false := by
      rcases h with h | h | h
      · exact absurd (by rw [hv] : (MessageVerifier.verify st.verifier now m).1 = none) h
      · exact Or.inl h
      · exact Or.inr h
    unfold SecureDisplayEngine.display
    rw [hv]
    rcases ht : AlertTier.fromString m.tier with _ | t
    · exact ⟨rfl, rfl⟩
    · rcases h2 with h2 | h2
      · rw [h2] at ht
        exact nomatch ht
      · have hval := h2 t ht
        rcases hp : st.tier_validator.validate t (content_template_id m.content)
          m.authorizations with ⟨b, msg⟩
        have hb : b = false := by
          rw [hp] at hval
          exact hval
        subst hb
        simp only [hp]
        exact ⟨trivial, trivial⟩

/-- Witness for C1: a concrete engine rejects a message bound to another
device with a failure result and an uncalled backend. -/
theorem display_never_renders_on_failure_C1_witness :
    ((SecureDisplayEngine.display
      { device_id := "devA", verifier := MessageVerifier.init 7 "devA",
        audit := AuditLogger.fresh "devA", tier_validator := ⟨none⟩,
        current_message := none }
      (fun _ => Except.ok true) 0 "2026-01-01T00:00:00Z"
      { message_id := "m1", device_id := "devB", timestamp := 0, expires := 100,
        nonce := "n1", tier := "informational", content := [],
        authorizations := [], signature := none }).result.success = false) ∧
    ((SecureDisplayEngine.display
      { device_id := "devA", verifier := MessageVerifier.init 7 "devA",
        audit := AuditLogger.fresh "devA", tier_validator := ⟨none⟩,
        current_message := none }
      (fun _ => Except.ok true) 0 "2026-01-01T00:00:00Z"
      { message_id := "m1", device_id := "devB", timestamp := 0, expires := 100,
        nonce := "n1", tier := "informational", content := [],
        authorizations := [], signature := none }).backend_called = false) :=
  display_never_renders_on_failure_C1
    { device_id := "devA", verifier := MessageVerifier.init 7 "devA",
      audit := AuditLogger.fresh "devA", tier_validator := ⟨none⟩,
      current_message := none }
    (fun _ => Except.ok true) 0 "2026-01-01T00:00:00Z"
    { message_id := "m1", device_id := "devB", timestamp := 0, expires := 100,
      nonce := "n1", tier := "informational", content := [],
      authorizations := [], signature := none }
    (Or.inl (by decide))

/-- `compute_hash` ignores `entry_hash`, so setting `entry_hash` does not
change it. -/
lemma compute_hash_set_entry (e : AuditEvent) (h : Option Hash) :
    ({ e with entry_hash := h } : AuditEvent).compute_hash = e.compute_hash := rfl

/-- The idealized digest is injective on the hashed fields. -/
lemma compute_hash_inj {a b : AuditEvent}
    (h : a.compute_hash = b.compute_hash) : a.hashed_fields = b.hashed_fields := by
  simp only [AuditEvent.compute_hash, Hash.digest.injEq] at h
  simp [AuditEvent.hashed_fields, h.1, h.2.1, h.2.2.1, h.2.2.2.1, h.2.2.2.2.1,
    h.2.2.2.2.2]

/-- Appending a correctly chained record preserves `chain_ok` and advances
the running hash. -/
lemma chain_ok_append (l : List AuditEvent) (e : AuditEvent) (lh : Hash)
    (hok : chain_ok lh l = true)
    (hprev : e.previous_hash = chain_last lh l)
    (hentry : e.entry_hash = some e.compute_hash) :
    chain_ok lh (l ++ [e]) = true ∧ chain_last lh (l ++ [e]) = e.compute_hash := by
  induction l generalizing lh with
  | nil =>
    simp only [List.nil_append, chain_ok, chain_last, Bool.and_eq_true,
      decide_eq_true_eq]
    exact ⟨⟨⟨hprev, hentry⟩, trivial⟩, by rw [hentry, Option.getD_some]⟩
  | cons a l ih =>
    simp only [chain_ok, Bool.and_eq_true, decide_eq_true_eq] at hok
    obtain ⟨⟨ha1, ha2⟩, hok⟩ := hok
    have hlast : chain_last lh (a :: l) = chain_last a.compute_hash l := by
      simp only [chain_last, ha2, Option.getD_some]
    rw [hlast] at hprev
    obtain ⟨hok2, hlast2⟩ := ih a.compute_hash hok hprev
    constructor
    · simp only [List.cons_append, chain_ok, Bool.and_eq_true, decide_eq_true_eq]
      exact ⟨⟨ha1, ha2⟩, hok2⟩
    · simp only [List.cons_append, chain_last, ha2, Option.getD_some]
      exact hlast2

/-- One `log()` call preserves the chain invariant. -/
lemma log_preserves_chain (st : AuditLogger) (etype : String) (data : AuditData)
    (ts : String)
    (hok : chain_ok GENESIS_HASH st.records = true)
    (hlast : st.last_hash = chain_last GENESIS_HASH st.records) :
    chain_ok GENESIS_HASH ((st.log etype data ts).2).records = true ∧
    ((st.log etype data ts).2).last_hash
      = chain_last GENESIS_HASH ((st.log etype data ts).2).records := by
  simp only [AuditLogger.log]
  have happd := chain_ok_append st.records
    { sequence := st.sequence + 1, timestamp := ts, event_type := etype,
      device_id := st.device_id, data := data, previous_hash := st.last_hash,
      entry_hash := some (AuditEvent.compute_hash
        { sequence := st.sequence + 1, timestamp := ts, event_type := etype,
          device_id := st.device_id, data := data, previous_hash := st.last_hash,
          entry_hash := none }) }
    GENESIS_HASH hok (by simpa using hlast) rfl
  exact ⟨happd.1, happd.2.symm ▸ rfl⟩

/-- A whole sequence of `log()` calls preserves the chain invariant. -/
lemma log_many_chain (calls : List LogCall) (st : AuditLogger)
    (hok : chain_ok GENESIS_HASH st.records = true)
    (hlast : st.last_hash = chain_last GENESIS_HASH st.records) :
    chain_ok GENESIS_HASH (st.log_many calls).records = true ∧
    (st.log_many calls).last_hash
      = chain_last GENESIS_HASH (st.log_many calls).records := by
  induction calls generalizing st with
  | nil => exact ⟨hok, hlast⟩
  | cons c cs ih =>
    have hstep := log_preserves_chain st c.event_type c.data c.ts hok hlast
    exact ih (st.log c.event_type c.data c.ts).2 hstep.1 hstep.2

/-- A chain-intact record list scans clean in `verify_chain`. -/
lemma scan_nil_of_chain_ok (l : List AuditEvent) (lh : Hash)
    (h : chain_ok lh l = true) : verify_chain_scan lh l = [] := by
  induction l generalizing lh with
  | nil => rfl
  | cons e es ih =>
    simp only [chain_ok, Bool.and_eq_true, decide_eq_true_eq] at h
    obtain ⟨⟨h1, h2⟩, h3⟩ := h
    simp only [verify_chain_scan, if_neg (by simp [h1] : ¬ e.previous_hash ≠ lh),
      if_neg (by simp [h2] : ¬ e.entry_hash ≠ some e.compute_hash),
      List.nil_append]
    rw [h2, Option.getD_some]
    exact ih e.compute_hash h3

/-- Any record whose stored `entry_hash` disagrees with its recomputed
hash is flagged by the `verify_chain` scan. -/
lemma scan_mem_of_bad_entry (l : List AuditEvent) (r : AuditEvent) (lh : Hash)
    (hr : r ∈ l) (hbad : r.entry_hash ≠ some r.compute_hash) :
    r.sequence ∈ verify_chain_scan lh l := by
  induction l generalizing lh with
  | nil => cases hr
  | cons e es ih =>
    rcases List.mem_cons.mp hr with rfl | hr2
    · simp only [verify_chain_scan, if_pos hbad]
      simp [List.mem_append]
    · simp only [verify_chain_scan]
      exact List.mem_append_right _ (ih _ hr2)

/-- In a chain-intact list every record's `entry_hash` is its recomputed
hash. -/
lemma chain_ok_mem_entry (l : List AuditEvent) (lh : Hash)
    (h : chain_ok lh l = true) (e : AuditEvent) (he : e ∈ l) :
    e.entry_hash = some e.compute_hash := by
  induction l generalizing lh with
  | nil => cases he
  | cons a es ih =>
    simp only [chain_ok, Bool.and_eq_true, decide_eq_true_eq] at h
    rcases List.mem_cons.mp he with rfl | he2
    · exact h.1.2
    · exact ih a.compute_hash h.2 he2

/-- C6: starting from an empty log, any sequence of `AuditLogger.log`
calls yields records satisfying the chain invariant (genesis previous
hash, per-record hash links, entry hashes of the canonical encoding), so
`verify_chain` returns `(true, [])`; and replacing any stored record by
one with different hashed fields but the same `entry_hash` (a byte flip in
any stored field except `entry_hash`) makes `verify_chain` flag that
record's sequence number as broken. -/
theorem audit_chain_C6 (dev : String) (calls : List LogCall) :
    chain_ok GENESIS_HASH ((AuditLogger.fresh dev).log_many calls).records = true ∧
    ((AuditLogger.fresh dev).log_many calls).verify_chain = (true, []) ∧
    (∀ (i : Nat) (r2 : AuditEvent)
      (h : i < ((AuditLogger.fresh dev).log_many calls).records.length),
      r2.entry_hash
        = (((AuditLogger.fresh dev).log_many calls).records.get ⟨i, h⟩).entry_hash →
      r2.hashed_fields
        ≠ (((AuditLogger.fresh dev).log_many calls).records.get ⟨i, h⟩).hashed_fields →
      (verify_chain_file
        (((AuditLogger.fresh dev).log_many calls).records.set i r2)).1 = false ∧
      r2.sequence ∈ (verify_chain_file
        (((AuditLogger.fresh dev).log_many calls).records.set i r2)).2) := by
  obtain ⟨hok, hlast⟩ := log_many_chain calls (AuditLogger.fresh dev) rfl rfl
  refine ⟨hok, ?_, ?_⟩
  · have hscan := scan_nil_of_chain_ok _ _ hok
    simp [AuditLogger.verify_chain, verify_chain_file, hscan]
  · intro i r2 h hentry hdiff
    have hmem : r2 ∈ ((AuditLogger.fresh dev).log_many calls).records.set i r2 :=
      List.mem_set _ i h r2
    have hrmem : ((AuditLogger.fresh dev).log_many calls).records.get ⟨i, h⟩
        ∈ ((AuditLogger.fresh dev).log_many calls).records :=
      List.get_mem _ _ _
    have hre := chain_ok_mem_entry _ _ hok _ hrmem
    have hbad : r2.entry_hash ≠ some r2.compute_hash := by
      rw [hentry, hre]
      intro hc
      exact hdiff (compute_hash_inj (Option.some.inj hc)).symm
    have hmemscan := scan_mem_of_bad_entry _ r2 GENESIS_HASH hmem hbad
    refine ⟨?_, hmemscan⟩
    have hne := List.ne_nil_of_mem hmemscan
    simp only [verify_chain_file]
    rcases hsc : verify_chain_scan GENESIS_HASH
        (((AuditLogger.fresh dev).log_many calls).records.set i r2) with _ | ⟨a, bs⟩
    · exact absurd hsc hne
    · simp [hsc]

/-- Witness for C6: a two-entry log verifies clean, and flipping the
`data` field of the first stored record makes `verify_chain` flag
sequence 1. -/
theorem audit_chain_C6_witness :
    ((AuditLogger.fresh "d").log_many
      [⟨"boot", .kv [("version", "1")], "t1"⟩,
       ⟨"message_displayed", .kv [("message_id", "m1")], "t2"⟩]).verify_chain
      = (true, []) ∧
    (verify_chain_file
      ((((AuditLogger.fresh "d").log_many
        [⟨"boot", .kv [("version", "1")], "t1"⟩,
         ⟨"message_displayed", .kv [("message_id", "m1")], "t2"⟩]).records).set 0
        { sequence := 1, timestamp := "t1", event_type := "boot", device_id := "d",
          data := .kv [("version", "HACKED")], previous_hash := GENESIS_HASH,
          entry_hash := some (Hash.digest 1 "t1" "boot" "d"
            (.kv [("version", "1")]) GENESIS_HASH) })).1 = false ∧
    (1 : Nat) ∈ (verify_chain_file
      ((((AuditLogger.fresh "d").log_many
        [⟨"boot", .kv [("version", "1")], "t1"⟩,
         ⟨"message_displayed", .kv [("message_id", "m1")], "t2"⟩]).records).set 0
        { sequence := 1, timestamp := "t1", event_type := "boot", device_id := "d",
          data := .kv [("version", "HACKED")], previous_hash := GENESIS_HASH,
          entry_hash := some (Hash.digest 1 "t1" "boot" "d"
            (.kv [("version", "1")]) GENESIS_HASH) })).2 := by
  refine ⟨(audit_chain_C6 "d" _).2.1, ?_⟩
  have h := (audit_chain_C6 "d"
    [⟨"boot", .kv [("version", "1")], "t1"⟩,
     ⟨"message_displayed", .kv [("message_id", "m1")], "t2"⟩]).2.2 0
    { sequence := 1, timestamp := "t1", event_type := "boot", device_id := "d",
      data := .kv [("version", "HACKED")], previous_hash := GENESIS_HASH,
      entry_hash := some (Hash.digest 1 "t1" "boot" "d"
        (.kv [("version", "1")]) GENESIS_HASH) }
    (by decide) (by decide) (by decide)
  exact h

/-- Counterexample for C9: a one-record log whose stored `entry_hash`
disagrees with its recomputed hash (its `previous_hash` is the intact
genesis value) is loaded without recording any `TamperDetected` event —
`_load_existing` only reports an entry-hash mismatch to the logger, it
does not record it. -/
theorem load_existing_C9_counterexample :
    (load_existing "d" "t"
      [{ sequence := 1, timestamp := "t1", event_type := "boot",
         device_id := "d", data := .kv [("version", "1")],
         previous_hash := GENESIS_HASH,
         entry_hash := some (Hash.raw "bad") }]).tamper_records = [] ∧
    ({ sequence := 1, timestamp := "t1", event_type := "boot",
       device_id := "d", data := .kv [("version", "1")],
       previous_hash := GENESIS_HASH,
       entry_hash := some (Hash.raw "bad") } : AuditEvent).entry_hash
      ≠ some (AuditEvent.compute_hash
        { sequence := 1, timestamp := "t1", event_type := "boot",
          device_id := "d", data := .kv [("version", "1")],
          previous_hash := GENESIS_HASH,
          entry_hash := some (Hash.raw "bad") }) :=
  ⟨by decide, by decide⟩

/-- The fields of one `_load_existing` loop iteration. -/
lemma load_step_fields (dev ts : String) (st : LoadState) (e : AuditEvent) :
    (load_step dev ts st e).tamper_records
      = st.tamper_records ++ (if e.previous_hash ≠ st.last_hash then
          [tamper_event dev ts st.sequence st.last_hash e] else []) ∧
    (load_step dev ts st e).sequence = e.sequence ∧
    (load_step dev ts st e).last_hash = e.entry_hash.getD e.compute_hash := by
  refine ⟨?_, ?_, ?_⟩
  · show (load_step dev ts st e).tamper_records = _
    simp only [load_step]
    split
    · rfl
    · exact (List.append_nil _).symm
  · show (load_step dev ts st e).sequence = _
    simp only [load_step]
  · show (load_step dev ts st e).last_hash = _
    simp only [load_step]

/-- The `_load_existing` replay loop: the tamper records it appends are
exactly the spec-required ones, iteration reaches the end of the list, and
the in-memory sequence and last-hash track the records. -/
lemma load_scan_spec (dev ts : String) (records : List AuditEvent) (st : LoadState) :
    (load_existing_scan dev ts st records).tamper_records
      = st.tamper_records
        ++ required_tamper_records dev ts st.last_hash st.sequence records ∧
    (load_existing_scan dev ts st records).sequence
      = records.foldl (fun _ e => e.sequence) st.sequence ∧
    (load_existing_scan dev ts st records).last_hash
      = chain_last st.last_hash records := by
  induction records generalizing st with
  | nil =>
    simp [load_existing_scan, required_tamper_records, chain_last]
  | cons e es ih =>
    obtain ⟨hs1, hs2, hs3⟩ := load_step_fields dev ts st e
    obtain ⟨ih1, ih2, ih3⟩ := ih (load_step dev ts st e)
    refine ⟨?_, ?_, ?_⟩
    · show (load_existing_scan dev ts (load_step dev ts st e) es).tamper_records = _
      rw [ih1, hs1, hs2, hs3]
      simp only [required_tamper_records, List.append_assoc]
    · show (load_existing_scan dev ts (load_step dev ts st e) es).sequence = _
      rw [ih2, hs2]
      rfl
    · show (load_existing_scan dev ts (load_step dev ts st e) es).last_hash = _
      rw [ih3, hs3]
      rfl

/-- Folding "keep the latest sequence number" yields the last record's
sequence number. -/
lemma foldl_seq_getLast (l : List AuditEvent) (a : Nat) :
    l.foldl (fun _ e => e.sequence) a
      = (l.getLast?.map AuditEvent.sequence).getD a := by
  induction l generalizing a with
  | nil => rfl
  | cons e es ih =>
    rw [List.foldl_cons, ih]
    rcases es with _ | ⟨f, fs⟩
    · rfl
    · rw [List.getLast?_cons_cons]
      rcases hgl : (f :: fs).getLast? with _ | g
      · exact absurd hgl (by simp)
      · simp [hgl]

/-- C9 (amended): while loading an existing log, every `previous_hash`
discontinuity (a record whose `previous_hash` does not match the running
last-hash) is recorded as a `TamperDetected` event, and those are the only
events recorded — an `entry_hash` mismatch is only reported to the error
logger; loading continues to the end of the file, ending at the last
record's sequence number and running hash. -/
theorem load_existing_records_tamper_C9 (dev ts : String)
    (records : List AuditEvent) :
    (load_existing dev ts records).tamper_records
      = required_tamper_records dev ts GENESIS_HASH 0 records ∧
    (load_existing dev ts records).sequence
      = ((records.getLast?).map AuditEvent.sequence).getD 0 ∧
    (load_existing dev ts records).last_hash
      = chain_last GENESIS_HASH records := by
  obtain ⟨h1, h2, h3⟩ := load_scan_spec dev ts records
    { sequence := 0, last_hash := GENESIS_HASH, tamper_records := [] }
  refine ⟨by simpa using h1, ?_, h3⟩
  rw [load_existing, h2, foldl_seq_getLast]
